import Mathlib

/-!
# Clinic front end: directory cards, booking handoff, appointment table

A shallow embedding of the browser scripts

* `components/doctorCard.js`   (`createDoctorCard` and its three click handlers),
* `services/doctorServices.js` (`getPatientData`; `getDoctors` and `filterDoctors` after the
                                outline that closes the file),
* `adminDashboard.js`          (`renderDoctorCards`, `loadDoctorCards`,
                                `filterDoctorsOnChange`, `adminAddDoctor`),
* `doctorDashboard.js`         (`loadAppointments` and the three filter triggers).

Conventions of the embedding.

* A DOM subtree is a value; the content area and the table body are lists of nodes.
* An event handler is a function from the answers of the outside world (what `confirm`
  returned, what `localStorage` holds, how a gateway call ended) to the list of calls it makes,
  in program order, together with the new view.
* `await f(x)` on a collaborator whose body is not part of these scripts is represented by the
  way the awaited promise settles: it either rejects (`threw`) or fulfils with a value.
* JavaScript strings are `String`; `null` and `undefined` of a string-valued lookup are `none`.
-/

namespace Clinic

/-! ## JavaScript primitives -/

/-- Code points removed by `String.prototype.trim`: ECMAScript WhiteSpace and LineTerminator. -/
def isJsWhitespace (c : Char) : Bool :=
  let n := c.toNat
  n == 0x09 || n == 0x0A || n == 0x0B || n == 0x0C || n == 0x0D || n == 0x20 ||
  n == 0xA0 || n == 0x1680 || (0x2000 ≤ n && n ≤ 0x200A) || n == 0x2028 || n == 0x2029 ||
  n == 0x202F || n == 0x205F || n == 0x3000 || n == 0xFEFF

/-- The characters of `s.trim()`. -/
def jsTrimChars (cs : List Char) : List Char :=
  ((cs.dropWhile isJsWhitespace).reverse.dropWhile isJsWhitespace).reverse

/-- Lean counterpart of `String.prototype.trim`. -/
def jsTrim (s : String) : String := ⟨jsTrimChars s.data⟩

/-- Truthiness of a string-valued lookup (`!token` is its negation): `null`, `undefined`
and `""` are falsy, every other string is truthy. -/
def truthyStr : Option String → Bool
  | none => false
  | some s => s != ""

/-- Result of `x || d` where `x` is a string or `null`/`undefined` and `d` a string. -/
def orStr (x : Option String) (d : String) : String :=
  match x with
  | some s => if s != "" then s else d
  | none => d

/-- Result of `s || null` for a string `s`. -/
def orNull (s : String) : Option String :=
  if s != "" then some s else none

/-! ## Data -/

/-- A doctor record as the cards read it: `id`, `name`, `specialty`, `email`,
`availableTimes`. -/
structure Doctor where
  id : Nat
  name : String
  specialty : String
  email : String
  availableTimes : List String
  deriving DecidableEq, Repr

/-- The patient profile returned by `GET /patient/details`. -/
structure PatientProfile where
  id : Nat
  name : String
  deriving DecidableEq, Repr

/-- The object a mutation endpoint wrapper resolves to: `{success, message}`;
`message = none` stands for a missing or `null` message. -/
structure GatewayResponse where
  success : Bool
  message : Option String
  deriving DecidableEq, Repr

/-- How an awaited collaborator call settles. -/
inductive Settled (α : Type) where
  | threw
  | returned (value : α)
  deriving DecidableEq, Repr

/-- Body of an HTTP response as seen by `response.json()`: the promise rejects on a body that
is not JSON, otherwise it yields a value (`none` is the JSON literal `null`). -/
inductive JsonBody (α : Type) where
  | malformed
  | value (v : Option α)
  deriving DecidableEq, Repr

/-- Outcome of `fetch(url, init)`: the request throws, or a response with its `ok` flag and
body arrives. -/
inductive FetchOutcome (α : Type) where
  | networkError
  | response (ok : Bool) (body : JsonBody α)
  deriving DecidableEq, Repr

/-- Calls a handler makes that are visible outside it, in program order. -/
inductive Effect where
  | confirm (msg : String)
  | alert (msg : String)
  | consoleError (label : String)
  | fetchPatientDetails (token : String)
  | deleteDoctor (id : Nat) (token : String)
  | getPatientData (token : String)
  | showBookingOverlay (doctor : Doctor) (patientData : Option PatientProfile)
  | saveDoctor (name email phone password specialty : String) (availability : List String)
      (token : String)
  | getDoctors
  | filterDoctors (name time specialty : Option String)
  | closeModal (which : String)
  | cardRemove
  | getAllAppointments (date name : String) (token : Option String)
  deriving DecidableEq, Repr

/-- Whether an effect is one of the gateway operations or the overlay hand-off. -/
def Effect.isGatewayCall : Effect → Bool
  | .fetchPatientDetails _ => true
  | .deleteDoctor _ _ => true
  | .getPatientData _ => true
  | .showBookingOverlay _ _ => true
  | .saveDoctor .. => true
  | .getDoctors => true
  | .filterDoctors .. => true
  | .getAllAppointments .. => true
  | _ => false

/-! ## `services/doctorServices.js`: `getPatientData` -/

/-- The function `getPatientData(token)`: one `fetch` of `/patient/details`; the parsed body
when the response is OK, `null` when it is not, and `null` (after logging) when `fetch` or
`response.json()` throws. It never rejects. -/
def getPatientData (token : String) (net : FetchOutcome PatientProfile) :
    List Effect × Option PatientProfile :=
  match net with
  | .response true (.value v) => ([.fetchPatientDetails token], v)
  | .response true .malformed =>
      ([.fetchPatientDetails token, .consoleError "Failed to get patient data:"], none)
  | .response false _ => ([.fetchPatientDetails token], none)
  | .networkError =>
      ([.fetchPatientDetails token, .consoleError "Failed to get patient data:"], none)

/-- The profile fetch failed: the response is not OK, or the request threw. -/
def FetchOutcome.failed {α : Type} : FetchOutcome α → Bool
  | .networkError => true
  | .response ok _ => !ok

/-! ## `components/doctorCard.js` -/

/-- The closure registered with `addEventListener("click", ...)` on a card button, one
constructor per listener in `createDoctorCard`; each captures the card's `doctor`. -/
inductive ClickAction where
  | adminDelete (doctor : Doctor)
  | promptLogin
  | bookNow (doctor : Doctor)
  deriving DecidableEq, Repr

/-- A `<button>` of the action container. -/
structure Button where
  text : String
  cls : String
  onClick : ClickAction
  deriving DecidableEq, Repr

/-- The element returned by `createDoctorCard`: `div.doctor-card` holding `div.doctor-info`
(an `h3` and three `p`) and `div.card-actions`. -/
structure Card where
  cls : String
  heading : String
  paragraphs : List String
  actions : List Button
  deriving DecidableEq, Repr

/-- The function `createDoctorCard(doctor)`; `role` is `localStorage.getItem("userRole")`. -/
def createDoctorCard (role : Option String) (doctor : Doctor) : Card :=
  let info : List String :=
    ["Specialty: " ++ doctor.specialty,
     "Email: " ++ doctor.email,
     "Available Times: " ++ ", ".intercalate doctor.availableTimes]
  let actions : List Button :=
    if role = some "admin" then
      [{ text := "Delete", cls := "btn-delete", onClick := .adminDelete doctor }]
    else if role = some "patient" then
      [{ text := "Book Now", cls := "btn-book", onClick := .promptLogin }]
    else if role = some "loggedPatient" then
      [{ text := "Book Now", cls := "btn-book", onClick := .bookNow doctor }]
    else []
  { cls := "doctor-card", heading := doctor.name, paragraphs := info, actions := actions }

/-- A child of the content area: a `<p>` written through `innerHTML`, or a doctor card. -/
inductive ContentNode where
  | para (text : String)
  | card (c : Card)
  deriving DecidableEq, Repr

/-- Whether a node of the content area is a doctor card. -/
def ContentNode.isCard : ContentNode → Bool
  | .card _ => true
  | .para _ => false

/-- What the outside world answers while one click handler runs. -/
structure ClickWorld where
  /-- what `confirm(...)` returns -/
  confirmed : Bool
  /-- value of `localStorage.getItem("token")` -/
  token : Option String
  /-- how `await deleteDoctor(doctor.id, token)` settles -/
  deleteResult : Settled GatewayResponse
  /-- how the `fetch` inside `getPatientData` ends -/
  patientFetch : FetchOutcome PatientProfile
  /-- whether the external `showBookingOverlay(e, doctor, patientData)` throws -/
  overlayThrows : Bool
  deriving DecidableEq, Repr

/-- The admin `removeBtn` listener, run for the card that is child `idx` of the content
area. `card.remove()` detaches exactly that node. -/
def adminDeleteClick (doctor : Doctor) (w : ClickWorld) (idx : Nat)
    (content : List ContentNode) : List Effect × List ContentNode :=
  let ask := Effect.confirm ("Are you sure you want to delete Dr. " ++ doctor.name ++ "?")
  if !w.confirmed then ([ask], content)
  else
    match w.token with
    | none => ([ask, .alert "Unauthorized action."], content)
    | some token =>
      if token == "" then ([ask, .alert "Unauthorized action."], content)
      else
        match w.deleteResult with
        | .returned response =>
            ([ask, .deleteDoctor doctor.id token,
              .alert (orStr response.message "Doctor deleted."), .cardRemove],
             content.eraseIdx idx)
        | .threw =>
            ([ask, .deleteDoctor doctor.id token, .consoleError "Delete error:",
              .alert "Failed to delete doctor."], content)

/-- The `bookNow` listener of the `patient` role. -/
def promptLoginClick : List Effect :=
  [.alert "Please log in as a patient to book an appointment."]

/-- The `bookNow` listener of the `loggedPatient` role, composed with `getPatientData`. -/
def bookNowClick (doctor : Doctor) (w : ClickWorld) : List Effect :=
  match w.token with
  | none => [.alert "Session expired. Please log in again."]
  | some token =>
    if token == "" then [.alert "Session expired. Please log in again."]
    else
      let (inner, patientData) := getPatientData token w.patientFetch
      [Effect.getPatientData token] ++ inner ++
        (if w.overlayThrows then
          [.showBookingOverlay doctor patientData, .consoleError "Booking error:",
           .alert "Unable to fetch patient data."]
        else [.showBookingOverlay doctor patientData])

/-- Dispatch of a click to the registered listener. The listeners of the two patient roles
never touch the content area. -/
def runClick (a : ClickAction) (w : ClickWorld) (idx : Nat) (content : List ContentNode) :
    List Effect × List ContentNode :=
  match a with
  | .adminDelete d => adminDeleteClick d w idx content
  | .promptLogin => (promptLoginClick, content)
  | .bookNow d => (bookNowClick d w, content)

/-! ## `adminDashboard.js` -/

/-- The function `renderDoctorCards(doctors)`, as a transformer of the content area:
`innerHTML = ""` empties it; a falsy or empty list leaves the single paragraph written through
`innerHTML`; otherwise one card per doctor is appended in list order. `doctors = none` stands
for `null`/`undefined`. -/
def renderDoctorCards (role : Option String) (doctors : Option (List Doctor))
    (_content : List ContentNode) : List ContentNode :=
  let cleared : List ContentNode := []
  match doctors with
  | none => [.para "No doctors found."]
  | some ds =>
    if ds.length = 0 then [.para "No doctors found."]
    else
      ds.foldl (fun content doctor => content ++ [.card (createDoctorCard role doctor)]) cleared

/-- The function `loadDoctorCards()`; `res` is how `await getDoctors()` settles. -/
def loadDoctorCards (role : Option String) (res : Settled (Option (List Doctor)))
    (content : List ContentNode) : List Effect × List ContentNode :=
  match res with
  | .returned doctors => ([.getDoctors], renderDoctorCards role doctors content)
  | .threw => ([.getDoctors, .consoleError "Error loading doctors:"], content)

/-- Current `value` of the three filter controls; `none` when `getElementById` finds no such
element (the `?.` chain then yields `undefined`). -/
structure FilterInputs where
  searchBar : Option String
  timeFilter : Option String
  specialtyFilter : Option String
  deriving DecidableEq, Repr

/-- The three arguments handed to `filterDoctors(name, time, specialty)`. -/
structure FilterArgs where
  name : Option String
  time : Option String
  specialty : Option String
  deriving DecidableEq, Repr

/-- Lines 44 to 51 of `filterDoctorsOnChange`: the search box is trimmed, the two selects are
read as they are, each is defaulted to `""` and then `""` is turned into `null`. -/
def filterCriteria (i : FilterInputs) : FilterArgs :=
  let nameInput := orStr (i.searchBar.map jsTrim) ""
  let timeFilter := orStr i.timeFilter ""
  let specialtyFilter := orStr i.specialtyFilter ""
  { name := orNull nameInput, time := orNull timeFilter, specialty := orNull specialtyFilter }

/-- The value `filterDoctors` resolves to: `none` is `null`/`undefined`, otherwise an object
whose `doctors` property may be missing. -/
structure FilterResult where
  doctors : Option (List Doctor)
  deriving DecidableEq, Repr

/-- The function `filterDoctorsOnChange()`; `res` is how `await filterDoctors(...)` settles. -/
def filterDoctorsOnChange (role : Option String) (i : FilterInputs)
    (res : Settled (Option FilterResult)) (content : List ContentNode) :
    List Effect × List ContentNode :=
  let a := filterCriteria i
  let call := Effect.filterDoctors a.name a.time a.specialty
  match res with
  | .returned (some { doctors := some ds }) =>
      if ds.length ≠ 0 then ([call], renderDoctorCards role (some ds) content)
      else ([call], [.para "No doctors found with the given filters."])
  | .returned _ => ([call], [.para "No doctors found with the given filters."])
  | .threw =>
      ([call, .alert "Failed to filter doctors, please try again.",
        .consoleError "Filter error:"], content)

/-- The add-doctor form: `value` of the five text inputs (`none` when the element is absent,
in which case reading `.value` throws) and the `.availability-checkbox` boxes in document
order as `(checked, value)`. -/
structure AddDoctorForm where
  doctorName : Option String
  doctorEmail : Option String
  doctorPhone : Option String
  doctorPassword : Option String
  doctorSpecialty : Option String
  checkboxes : List (Bool × String)
  deriving DecidableEq, Repr

/-- What the outside world answers while `adminAddDoctor` runs. -/
structure AddWorld where
  /-- value of `localStorage.getItem("token")` -/
  token : Option String
  /-- value of `localStorage.getItem("userRole")`, read by the cards of the reload -/
  role : Option String
  /-- how `await saveDoctor(doctor, token)` settles -/
  saveResult : Settled GatewayResponse
  /-- whether `openModal.closeModal` is defined -/
  hasCloseModal : Bool
  /-- how `await getDoctors()` settles in the reload -/
  doctorsResult : Settled (Option (List Doctor))
  deriving DecidableEq, Repr

/-- The `catch` block of `adminAddDoctor`. -/
def addDoctorCaught : List Effect :=
  [.consoleError "Error adding doctor:", .alert "An unexpected error occurred. Please try again."]

/-- The function `adminAddDoctor()`. -/
def adminAddDoctor (f : AddDoctorForm) (w : AddWorld) (content : List ContentNode) :
    List Effect × List ContentNode :=
  match f.doctorName, f.doctorEmail, f.doctorPhone, f.doctorPassword, f.doctorSpecialty with
  | some n, some e, some ph, some pw, some sp =>
    let name := jsTrim n
    let email := jsTrim e
    let phone := jsTrim ph
    let password := jsTrim pw
    let specialty := jsTrim sp
    let availability := (f.checkboxes.filter (fun box => box.1)).map (fun box => box.2)
    if name == "" || email == "" || password == "" || specialty == "" then
      ([.alert "Please fill in all required fields."], content)
    else if !truthyStr w.token then
      ([.alert "You must be logged in as admin to add a doctor."], content)
    else
      let token := w.token.getD ""
      let call := Effect.saveDoctor name email phone password specialty availability token
      match w.saveResult with
      | .threw => (call :: addDoctorCaught, content)
      | .returned response =>
        if response.success then
          let reload := loadDoctorCards w.role w.doctorsResult content
          ([call, .alert "Doctor added successfully."] ++
             (if w.hasCloseModal then [.closeModal "addDoctor"] else []) ++ reload.1,
           reload.2)
        else
          -- string concatenation renders a missing message as "undefined"
          ([call, .alert ("Failed to add doctor: " ++ response.message.getD "undefined")],
           content)
  | _, _, _, _, _ => (addDoctorCaught, content)

/-! ## `doctorDashboard.js` -/

/-- A value found in a field of a decoded JSON record. Identifiers are integers here;
`obj` stands for any object or array. -/
inductive JsVal where
  | undefined
  | null
  | bool (b : Bool)
  | num (n : Int)
  | str (s : String)
  | obj
  deriving DecidableEq, Repr

/-- The abstract operation `ToBoolean`. -/
def JsVal.truthy : JsVal → Bool
  | .undefined => false
  | .null => false
  | .bool b => b
  | .num n => n != 0
  | .str s => s != ""
  | .obj => true

/-- The operator `a || b`. -/
def jsOr (a b : JsVal) : JsVal := if a.truthy then a else b

/-- The nested `patient` object of an appointment record. -/
structure PatientObj where
  id : JsVal
  name : JsVal
  phone : JsVal
  email : JsVal
  deriving DecidableEq, Repr

/-- An appointment record as `loadAppointments` reads it; `patient = none` when
`app.patient` is `null` or `undefined`. -/
structure AppointmentRecord where
  appointmentId : JsVal
  id : JsVal
  doctorId : JsVal
  patientId : JsVal
  patientName : JsVal
  patientPhone : JsVal
  patientEmail : JsVal
  patient : Option PatientObj
  deriving DecidableEq, Repr

/-- The expression `app.patient?.field`. -/
def optChain (p : Option PatientObj) (field : PatientObj → JsVal) : JsVal :=
  match p with
  | some o => field o
  | none => .undefined

/-- The object literal `patient` built for each record. -/
structure NormalizedPatient where
  id : JsVal
  name : JsVal
  phone : JsVal
  email : JsVal
  deriving DecidableEq, Repr

/-- Lines 52 to 57 of `loadAppointments`. -/
def normalizePatient (app : AppointmentRecord) : NormalizedPatient :=
  { id := jsOr (jsOr app.patientId (optChain app.patient (·.id))) .null
    name := jsOr (jsOr app.patientName (optChain app.patient (·.name))) (.str "Unknown")
    phone := jsOr (jsOr app.patientPhone (optChain app.patient (·.phone))) (.str "")
    email := jsOr (jsOr app.patientEmail (optChain app.patient (·.email))) (.str "") }

/-- Second argument of `createPatientRow`: `app.appointmentId || app.id`. -/
def rowAppointmentId (app : AppointmentRecord) : JsVal := jsOr app.appointmentId app.id

/-- Third argument of `createPatientRow`: `app.doctorId || null`. -/
def rowDoctorId (app : AppointmentRecord) : JsVal := jsOr app.doctorId .null

/-- A `<tr>` of the table body: a one-cell message row written by `loadAppointments`
itself, or the node the external `createPatientRow` returned. -/
inductive TableRow (ρ : Type) where
  | message (colspan : Nat) (cls : String) (text : String)
  | built (row : ρ)
  deriving DecidableEq, Repr

/-- The `forEach` loop of `loadAppointments`: rows are appended one by one until
`createPatientRow` throws. `createPatientRow` is an external collaborator and is a parameter. -/
def appendRows {ρ : Type} (createPatientRow : NormalizedPatient → JsVal → JsVal → Settled ρ) :
    List AppointmentRecord → List (TableRow ρ) → Settled (List (TableRow ρ))
  | [], rows => .returned rows
  | app :: rest, rows =>
    match createPatientRow (normalizePatient app) (rowAppointmentId app) (rowDoctorId app) with
    | .threw => .threw
    | .returned row => appendRows createPatientRow rest (rows ++ [.built row])

/-- The row written by the `catch` block. -/
def errorRow {ρ : Type} : TableRow ρ :=
  .message 5 "text-center text-danger" "Error loading appointments. Try again later."

/-- The row appended when no appointment came back. -/
def noDataRow {ρ : Type} : TableRow ρ :=
  .message 5 "text-center" "No Appointments found for today."

/-- State of the doctor dashboard: the two module variables, the constant `token`, the value
shown by the date picker and the rows of `tableBody`. -/
structure Dashboard (ρ : Type) where
  selectedDate : String
  patientName : String
  token : Option String
  datePickerValue : String
  tableBody : List (TableRow ρ)
  deriving DecidableEq, Repr

/-- The function `loadAppointments()`; `res` is how `await getAllAppointments(...)` settles
(`none` for `null`/`undefined`). Returns the calls made and the new table body. -/
def loadAppointments {ρ : Type}
    (createPatientRow : NormalizedPatient → JsVal → JsVal → Settled ρ)
    (res : Settled (Option (List AppointmentRecord))) (s : Dashboard ρ) :
    List Effect × Dashboard ρ :=
  let call := Effect.getAllAppointments s.selectedDate s.patientName s.token
  match res with
  | .threw =>
      ([call, .consoleError "Error loading appointments:"], { s with tableBody := [errorRow] })
  | .returned none => ([call], { s with tableBody := [noDataRow] })
  | .returned (some apps) =>
    if apps.length = 0 then ([call], { s with tableBody := [noDataRow] })
    else
      match appendRows createPatientRow apps [] with
      | .returned rows => ([call], { s with tableBody := rows })
      | .threw =>
          ([call, .consoleError "Error loading appointments:"],
           { s with tableBody := [errorRow] })

/-- Module initialisation: `selectedDate` is today, `patientName` is the string `"null"`,
the date picker shows `selectedDate`; the static table body is whatever the page holds. -/
def Dashboard.initial {ρ : Type} (today : String) (token : Option String)
    (rows : List (TableRow ρ)) : Dashboard ρ :=
  { selectedDate := today, patientName := "null", token := token, datePickerValue := today,
    tableBody := rows }

/-- The events the dashboard listens to, with what the browser supplies at that moment. -/
inductive Trigger where
  /-- event `input` on the search bar; `value` is `searchBar.value` -/
  | searchInput (value : String)
  /-- event `click` on the today button; `today` is `new Date().toISOString().slice(0, 10)` -/
  | todayClick (today : String)
  /-- event `change` on the date picker; `value` is `datePicker.value` -/
  | dateChange (value : String)
  /-- event `DOMContentLoaded` -/
  | pageLoad
  deriving DecidableEq, Repr

/-- The state update each listener performs before it calls `loadAppointments()`. -/
def applyTrigger {ρ : Type} (t : Trigger) (s : Dashboard ρ) : Dashboard ρ :=
  match t with
  | .searchInput value =>
    let input := jsTrim value
    { s with patientName := if input.length > 0 then input else "null" }
  | .todayClick today => { s with selectedDate := today, datePickerValue := today }
  | .dateChange value => { s with selectedDate := value, datePickerValue := value }
  | .pageLoad => s

/-- One listener run to completion: the state update followed by `loadAppointments()`. -/
def dashboardStep {ρ : Type}
    (createPatientRow : NormalizedPatient → JsVal → JsVal → Settled ρ)
    (t : Trigger) (res : Settled (Option (List AppointmentRecord))) (s : Dashboard ρ) :
    List Effect × Dashboard ρ :=
  loadAppointments createPatientRow res (applyTrigger t s)

/-- States the dashboard can be in after module initialisation and any run of listeners. -/
inductive Reachable {ρ : Type}
    (createPatientRow : NormalizedPatient → JsVal → JsVal → Settled ρ) : Dashboard ρ → Prop where
  | init (today : String) (token : Option String) (rows : List (TableRow ρ)) :
      Reachable createPatientRow (Dashboard.initial today token rows)
  | step (t : Trigger) (res : Settled (Option (List AppointmentRecord))) (s : Dashboard ρ) :
      Reachable createPatientRow s →
      Reachable createPatientRow (dashboardStep createPatientRow t res s).2

/-! ## Auxiliary predicates and sample data used by the statements -/

/-- The add-doctor form has all five inputs on the page and the four required ones (name,
email, password, specialty) are non-blank after trimming. -/
def AddDoctorForm.requiredFilled (f : AddDoctorForm) : Bool :=
  match f.doctorName, f.doctorEmail, f.doctorPhone, f.doctorPassword, f.doctorSpecialty with
  | some n, some e, some _, some pw, some sp =>
      jsTrim n != "" && jsTrim e != "" && jsTrim pw != "" && jsTrim sp != ""
  | _, _, _, _, _ => false

/-- A sample doctor. -/
def drAnn : Doctor :=
  { id := 5, name := "Ann", specialty := "Cardiology", email := "ann@clinic.test",
    availableTimes := ["09:00", "10:00"] }

/-- A second sample doctor. -/
def drBob : Doctor :=
  { id := 8, name := "Bob", specialty := "Dermatology", email := "bob@clinic.test",
    availableTimes := ["14:00"] }

/-- A third sample doctor. -/
def drCy : Doctor :=
  { id := 13, name := "Cy", specialty := "Neurology", email := "cy@clinic.test",
    availableTimes := [] }

/-- A logged-in patient clicks while the profile endpoint answers with a non-OK status and
the overlay, handed `null`, returns normally. -/
def worldProfileRejected : ClickWorld :=
  { confirmed := true, token := some "tok-1", deleteResult := .threw,
    patientFetch := .response false (.value none), overlayThrows := false }

/-- An admin confirms the dialog and the delete wrapper resolves to a failure response. -/
def worldDeleteRefused : ClickWorld :=
  { confirmed := true, token := some "tok-1",
    deleteResult := .returned { success := false, message := some "Doctor not found" },
    patientFetch := .networkError, overlayThrows := false }

/-- A click with nothing stored under `token`. -/
def worldNoToken : ClickWorld :=
  { confirmed := true, token := none, deleteResult := .returned { success := true, message := none },
    patientFetch := .response true (.value (some { id := 1, name := "Pat" })),
    overlayThrows := false }

/-- A completely filled add-doctor form. -/
def formFilled : AddDoctorForm :=
  { doctorName := some " Dana ", doctorEmail := some "dana@clinic.test",
    doctorPhone := some "", doctorPassword := some "s3cret", doctorSpecialty := some "ENT",
    checkboxes := [(true, "09:00"), (false, "10:00")] }

/-- The add-doctor form is submitted while the stored token is the empty string. -/
def addWorldEmptyToken : AddWorld :=
  { token := some "", role := some "admin",
    saveResult := .returned { success := true, message := none }, hasCloseModal := false,
    doctorsResult := .returned (some [drAnn]) }

/-- A filter control counts as blank when it is missing, empty or whitespace-only. -/
def blankField (field : Option String) : Bool :=
  match field with
  | none => true
  | some s => jsTrim s == ""

/-- The normalisation of one filter field in the specification's words: the argument is
`null` or the field's value verbatim, a blank field gives `null`, and the argument is never
the empty string. -/
def ForwardedVerbatim (field arg : Option String) : Prop :=
  (arg = none ∨ arg = field) ∧ (blankField field = true → arg = none) ∧ arg ≠ some ""

/-- Filter controls with a padded name and a whitespace-only time. -/
def paddedInputs : FilterInputs :=
  { searchBar := some " Smith ", timeFilter := some " ", specialtyFilter := none }

/-- A supplied value in the specification's sense: anything but `undefined` and `null`, so
that the number `0` and the empty string count as present. -/
def JsVal.supplied : JsVal → Bool
  | .undefined => false
  | .null => false
  | _ => true

/-- The fallback chain in the specification's words: the flattened field when supplied, else
the nested field when supplied, else the default. -/
def firstSupplied (flat nested dflt : JsVal) : JsVal :=
  if flat.supplied then flat else if nested.supplied then nested else dflt

/-- The fallback chain with presence read as truthiness. -/
def firstTruthy (flat nested dflt : JsVal) : JsVal :=
  if flat.truthy then flat else if nested.truthy then nested else dflt

/-- An appointment whose flattened patient id is `0`, whose flattened name and phone are
empty strings, and whose appointment and doctor ids are `0`, next to a filled nested
patient object. -/
def zeroIdAppointment : AppointmentRecord :=
  { appointmentId := .num 0, id := .num 9, doctorId := .num 0,
    patientId := .num 0, patientName := .str "", patientPhone := .str "",
    patientEmail := .str "flat@clinic.test",
    patient := some { id := .num 7, name := .str "Bob", phone := .str "555", email := .undefined } }

/-- A row factory that never throws and returns the patient it was given. -/
def echoRow : NormalizedPatient → JsVal → JsVal → Settled NormalizedPatient :=
  fun p _ _ => .returned p

/-! ## Gateway wrappers `getDoctors` and `filterDoctors` -/

/-- One run of a gateway wrapper: whether it wrote to the console, whether it raised an
`alert`, and how the promise it returned settled. -/
structure WrapperRun (α : Type) where
  logged : Bool
  alerted : Bool
  settled : Settled α
  deriving DecidableEq, Repr

/-- Modelled from the spec: the body of `getDoctors` is missing from the sources; the
repository describes it only in the outline that closes `services/doctorServices.js`, which
is followed here: "Use fetch() to send a GET request to the DOCTOR_API endpoint. Convert the
response to JSON. Return the 'doctors' array from the response. If there's an error (e.g.,
network issue), log it and return an empty array." The `ok` flag is not consulted; a thrown
`fetch`, a body that is not JSON and a `null` body (reading `doctors` of it throws) are the
errors. -/
def getDoctors (net : FetchOutcome FilterResult) : WrapperRun (Option (List Doctor)) :=
  match net with
  | .response _ (.value (some envelope)) =>
      { logged := false, alerted := false, settled := .returned envelope.doctors }
  | .response _ (.value none) =>
      { logged := true, alerted := false, settled := .returned (some []) }
  | .response _ .malformed =>
      { logged := true, alerted := false, settled := .returned (some []) }
  | .networkError => { logged := true, alerted := false, settled := .returned (some []) }

/-- Modelled from the spec: the body of `filterDoctors` is missing from the sources; the
repository describes it only in the outline that closes `services/doctorServices.js`, which
is followed here: "Use fetch() with the GET method. Check if the response is OK: if yes,
parse and return the doctor data; if no, log the error and return an object with an empty
'doctors' array. Catch any other errors, alert the user, and return a default empty
result." -/
def filterDoctors (net : FetchOutcome FilterResult) : WrapperRun (Option FilterResult) :=
  match net with
  | .response true (.value v) => { logged := false, alerted := false, settled := .returned v }
  | .response true .malformed =>
      { logged := false, alerted := true, settled := .returned (some { doctors := some [] }) }
  | .response false _ =>
      { logged := true, alerted := false, settled := .returned (some { doctors := some [] }) }
  | .networkError =>
      { logged := false, alerted := true, settled := .returned (some { doctors := some [] }) }

/-- The directory as an admin sees it after two doctors were loaded. -/
def twoCards : List ContentNode :=
  [.card (createDoctorCard (some "admin") drAnn), .card (createDoctorCard (some "admin") drBob)]

/-- Filter controls asking for the name "Smith" only. -/
def smithInputs : FilterInputs :=
  { searchBar := some "Smith", timeFilter := some "", specialtyFilter := none }

/-! # Theorems -/

/-! ## Card actions and the booking hand-off -/

theorem truthyStr_some {token : Option String} (h : truthyStr token = true) :
    ∃ t, token = some t ∧ (t == "") = false := by
  cases token with
  | none => simp [truthyStr] at h
  | some t =>
    refine ⟨t, rfl, ?_⟩
    simpa [truthyStr, bne] using h

theorem getPatientData_failed (token : String) (net : FetchOutcome PatientProfile)
    (h : net.failed = true) :
    (getPatientData token net).2 = none ∧
      ∀ m, Effect.alert m ∉ (getPatientData token net).1 := by
  cases net with
  | networkError => simp [getPatientData]
  | response ok body =>
    cases ok with
    | true => simp [FetchOutcome.failed] at h
    | false => simp [getPatientData]

/-- C1 (code defect): for every doctor, every present token and every failed profile fetch
(non-OK response or thrown request), the `loggedPatient` "Book Now" listener composed with
`getPatientData` DOES call `showBookingOverlay`, handing it `null` as patient data; and
unless the overlay itself throws, no notice at all is shown. The failure branch of the
listener is unreachable from a failed fetch because `getPatientData` returns `null` instead
of throwing. -/
theorem bookNow_failed_fetch_still_calls_overlay (doctor : Doctor) (w : ClickWorld)
    (idx : Nat) (content : List ContentNode)
    (h_token : truthyStr w.token = true) (h_failed : w.patientFetch.failed = true) :
    (createDoctorCard (some "loggedPatient") doctor).actions.map (·.onClick)
        = [.bookNow doctor] ∧
      Effect.showBookingOverlay doctor none ∈ (runClick (.bookNow doctor) w idx content).1 ∧
      (w.overlayThrows = false →
        ∀ m, Effect.alert m ∉ (runClick (.bookNow doctor) w idx content).1) := by
  obtain ⟨t, ht, hne⟩ := truthyStr_some h_token
  obtain ⟨hnone, hquiet⟩ := getPatientData_failed t w.patientFetch h_failed
  refine ⟨by simp [createDoctorCard], ?_, ?_⟩
  · simp only [runClick, bookNowClick, ht, hne]
    rcases hgp : getPatientData t w.patientFetch with ⟨inner, pd⟩
    have hpd : pd = none := by simpa [hgp] using hnone
    subst hpd
    cases w.overlayThrows <;> simp
  · intro hov m
    simp only [runClick, bookNowClick, ht, hne]
    rcases hgp : getPatientData t w.patientFetch with ⟨inner, pd⟩
    have hq : Effect.alert m ∉ inner := by simpa [hgp] using hquiet m
    simp [hov, hq]

/-- Witness for C1 at a non-OK profile response. -/
theorem bookNow_failed_fetch_still_calls_overlay_witness :
    truthyStr worldProfileRejected.token = true ∧
      worldProfileRejected.patientFetch.failed = true ∧
      Effect.showBookingOverlay drAnn none ∈
        (runClick (.bookNow drAnn) worldProfileRejected 0 []).1 ∧
      (runClick (.bookNow drAnn) worldProfileRejected 0 []).1 =
        [.getPatientData "tok-1", .fetchPatientDetails "tok-1",
         .showBookingOverlay drAnn none] :=
  ⟨by decide, by decide,
   (bookNow_failed_fetch_still_calls_overlay drAnn worldProfileRejected 0 []
      (by decide) (by decide)).2.1,
   by decide⟩


/-- The view after the admin delete listener, in all cases: the clicked card is detached
exactly when the dialog was confirmed, a token is present and `deleteDoctor` resolved (with
whatever response); otherwise the content area is untouched. -/
theorem adminDeleteClick_view (doctor : Doctor) (w : ClickWorld) (idx : Nat)
    (content : List ContentNode) :
    (adminDeleteClick doctor w idx content).2 =
      if w.confirmed && truthyStr w.token && w.deleteResult != .threw
      then content.eraseIdx idx else content := by
  unfold adminDeleteClick
  cases hc : w.confirmed with
  | false => simp
  | true =>
    cases ht : w.token with
    | none => simp [truthyStr]
    | some t =>
      by_cases hte : t = ""
      · simp [truthyStr, hte]
      · cases hr : w.deleteResult <;> simp [truthyStr, hte]

/-- C2 (code defect): for every doctor whose delete is confirmed with a present token, when
`deleteDoctor` resolves to a failure response `{success: false, message}` the admin listener
still detaches the clicked card (child `idx` of the content area) and shows the response
message (or "Doctor deleted.") instead of leaving the card in place; `response.success` is
never read. -/
theorem adminDelete_failure_response_removes_card (doctor : Doctor) (w : ClickWorld)
    (idx : Nat) (content : List ContentNode) (message : Option String)
    (h_confirmed : w.confirmed = true) (h_token : truthyStr w.token = true)
    (h_refused : w.deleteResult = .returned { success := false, message := message }) :
    runClick (.adminDelete doctor) w idx content =
      ([.confirm ("Are you sure you want to delete Dr. " ++ doctor.name ++ "?"),
        .deleteDoctor doctor.id (w.token.getD ""),
        .alert (orStr message "Doctor deleted."), .cardRemove],
       content.eraseIdx idx) := by
  obtain ⟨t, ht, hne⟩ := truthyStr_some h_token
  simp [runClick, adminDeleteClick, h_confirmed, ht, hne, h_refused]

/-- Witness for C2: three admin cards, the middle one is clicked, the gateway refuses, and
the middle card is gone all the same. -/
theorem adminDelete_failure_response_removes_card_witness :
    worldDeleteRefused.confirmed = true ∧ truthyStr worldDeleteRefused.token = true ∧
      (runClick (.adminDelete drBob) worldDeleteRefused 1
          (renderDoctorCards (some "admin") (some [drAnn, drBob, drCy]) [])).2 =
        [.card (createDoctorCard (some "admin") drAnn),
         .card (createDoctorCard (some "admin") drCy)] :=
  ⟨by decide, by decide,
   (congrArg Prod.snd
      (adminDelete_failure_response_removes_card drBob worldDeleteRefused 1
        (renderDoctorCards (some "admin") (some [drAnn, drBob, drCy]) [])
        (some "Doctor not found") (by decide) (by decide) (by decide))).trans (by decide)⟩

/-- C3: for every doctor, under role `admin` the action container holds exactly the delete
button and nothing labelled "Book Now" or wired to a booking listener; under role `patient`
it holds one "Book Now" button whose listener, for every token state and every answer of
the outside world, only shows the log-in prompt: it makes no gateway or overlay call and
leaves the content area as it is. -/
theorem createDoctorCard_role_actions (doctor : Doctor) :
    (createDoctorCard (some "admin") doctor).actions =
        [{ text := "Delete", cls := "btn-delete", onClick := .adminDelete doctor }] ∧
      (∀ b ∈ (createDoctorCard (some "admin") doctor).actions,
        b.text ≠ "Book Now" ∧ b.onClick ≠ .promptLogin ∧ ∀ d, b.onClick ≠ .bookNow d) ∧
      (createDoctorCard (some "patient") doctor).actions =
        [{ text := "Book Now", cls := "btn-book", onClick := .promptLogin }] ∧
      (∀ b ∈ (createDoctorCard (some "patient") doctor).actions,
        ∀ (w : ClickWorld) (idx : Nat) (content : List ContentNode),
          runClick b.onClick w idx content =
              ([.alert "Please log in as a patient to book an appointment."], content) ∧
            ∀ e ∈ (runClick b.onClick w idx content).1, e.isGatewayCall = false) := by
  refine ⟨by simp [createDoctorCard], ?_, by simp [createDoctorCard], ?_⟩
  · intro b hb
    simp [createDoctorCard] at hb
    subst hb
    simp
  · intro b hb w idx content
    simp [createDoctorCard] at hb
    subst hb
    simp [runClick, promptLoginClick, Effect.isGatewayCall]

/-- C4: when the stored token is absent (`null` or the empty string), the confirmed admin
delete, the `loggedPatient` "Book Now" and `adminAddDoctor` on a filled form each show one
notice, make no gateway or overlay call, and leave the content area unchanged. -/
theorem authMissing_short_circuits (doctor : Doctor) (w : ClickWorld) (idx : Nat)
    (content : List ContentNode) (f : AddDoctorForm) (aw : AddWorld)
    (h_confirmed : w.confirmed = true) (h_token : truthyStr w.token = false)
    (h_filled : f.requiredFilled = true) (h_adminToken : truthyStr aw.token = false) :
    runClick (.adminDelete doctor) w idx content =
        ([.confirm ("Are you sure you want to delete Dr. " ++ doctor.name ++ "?"),
          .alert "Unauthorized action."], content) ∧
      runClick (.bookNow doctor) w idx content =
        ([.alert "Session expired. Please log in again."], content) ∧
      adminAddDoctor f aw content =
        ([.alert "You must be logged in as admin to add a doctor."], content) ∧
      (∀ e ∈ (runClick (.adminDelete doctor) w idx content).1 ++
              (runClick (.bookNow doctor) w idx content).1 ++
              (adminAddDoctor f aw content).1, e.isGatewayCall = false) := by
  have hdel : runClick (.adminDelete doctor) w idx content =
      ([.confirm ("Are you sure you want to delete Dr. " ++ doctor.name ++ "?"),
        .alert "Unauthorized action."], content) := by
    cases ht : w.token with
    | none => simp [runClick, adminDeleteClick, h_confirmed, ht]
    | some t =>
      have : t = "" := by simpa [truthyStr, ht] using h_token
      simp [runClick, adminDeleteClick, h_confirmed, ht, this]
  have hbook : runClick (.bookNow doctor) w idx content =
      ([.alert "Session expired. Please log in again."], content) := by
    cases ht : w.token with
    | none => simp [runClick, bookNowClick, ht]
    | some t =>
      have : t = "" := by simpa [truthyStr, ht] using h_token
      simp [runClick, bookNowClick, ht, this]
  have hadd : adminAddDoctor f aw content =
      ([.alert "You must be logged in as admin to add a doctor."], content) := by
    unfold AddDoctorForm.requiredFilled at h_filled
    unfold adminAddDoctor
    split at h_filled
    · next n e ph pw sp hn he hph hpw hsp =>
      simp only [hn, he, hph, hpw, hsp]
      simp at h_filled
      simp [h_filled, h_adminToken]
    · simp at h_filled
  refine ⟨hdel, hbook, hadd, ?_⟩
  rw [hdel, hbook, hadd]
  intro e he
  simp at he
  rcases he with h | h | h | h <;> subst h <;> rfl

/-- Witness for C4: no token for the two card listeners, an empty-string token for the
form. -/
theorem authMissing_short_circuits_witness :
    worldNoToken.confirmed = true ∧ truthyStr worldNoToken.token = false ∧
      formFilled.requiredFilled = true ∧ truthyStr addWorldEmptyToken.token = false ∧
      adminAddDoctor formFilled addWorldEmptyToken [.card (createDoctorCard (some "admin") drAnn)]
        = ([.alert "You must be logged in as admin to add a doctor."],
           [.card (createDoctorCard (some "admin") drAnn)]) :=
  ⟨by decide, by decide, by decide, by decide,
   (authMissing_short_circuits drAnn worldNoToken 0
      [.card (createDoctorCard (some "admin") drAnn)] formFilled addWorldEmptyToken
      (by decide) (by decide) (by decide) (by decide)).2.2.1⟩


/-! ## Directory controller -/

theorem orNull_ne_empty (s : String) : orNull s ≠ some "" := by
  unfold orNull
  by_cases h : s = "" <;> simp [h]

/-- C5 (counterexample): with the search box holding " Smith " and the time filter holding a
single space, the name argument is "Smith", which is neither `null` nor the field verbatim,
and the time argument is " " although the field is blank. -/
theorem filterCriteria_verbatim_counterexample :
    ¬ ForwardedVerbatim paddedInputs.searchBar (filterCriteria paddedInputs).name ∧
      ¬ (blankField paddedInputs.timeFilter = true →
          (filterCriteria paddedInputs).time = none) ∧
      (filterCriteria paddedInputs).name = some "Smith" ∧
      (filterCriteria paddedInputs).time = some " " := by
  refine ⟨?_, ?_, by decide, by decide⟩
  · unfold ForwardedVerbatim
    decide
  · decide

/-- C5 (amended): for every triple of filter controls, the name argument is the trimmed
search-box value, or `null` when the box is missing or trims to the empty string; the time
and specialty arguments are the control's value verbatim (whitespace included), or `null`
when the control is missing or its value is exactly the empty string; no argument is ever
the empty string. -/
theorem filterCriteria_normalisation (i : FilterInputs) :
    (filterCriteria i).name =
        (match i.searchBar with
         | none => none
         | some s => if jsTrim s = "" then none else some (jsTrim s)) ∧
      (filterCriteria i).time =
        (match i.timeFilter with
         | none => none
         | some s => if s = "" then none else some s) ∧
      (filterCriteria i).specialty =
        (match i.specialtyFilter with
         | none => none
         | some s => if s = "" then none else some s) ∧
      (filterCriteria i).name ≠ some "" ∧ (filterCriteria i).time ≠ some "" ∧
      (filterCriteria i).specialty ≠ some "" := by
  refine ⟨?_, ?_, ?_, orNull_ne_empty _, orNull_ne_empty _, orNull_ne_empty _⟩
  · cases h : i.searchBar with
    | none => simp [filterCriteria, h, orStr, orNull]
    | some s => by_cases hs : jsTrim s = "" <;> simp [filterCriteria, h, orStr, orNull, hs]
  · cases h : i.timeFilter with
    | none => simp [filterCriteria, h, orStr, orNull]
    | some s => by_cases hs : s = "" <;> simp [filterCriteria, h, orStr, orNull, hs]
  · cases h : i.specialtyFilter with
    | none => simp [filterCriteria, h, orStr, orNull]
    | some s => by_cases hs : s = "" <;> simp [filterCriteria, h, orStr, orNull, hs]

/-- C6: whatever the role, the filter controls and the previous content, a filter result with
zero matches (result `null`, `doctors` missing, or `doctors` empty) leaves exactly the one
paragraph "No doctors found with the given filters." and no card; an unfiltered load whose
list is `null`/`undefined` or empty leaves exactly the one paragraph "No doctors found." and
no card; the two texts differ. -/
theorem empty_result_placeholders (role : Option String) (i : FilterInputs)
    (content : List ContentNode) :
    (filterDoctorsOnChange role i (.returned none) content).2 =
        [.para "No doctors found with the given filters."] ∧
      (filterDoctorsOnChange role i (.returned (some { doctors := none })) content).2 =
        [.para "No doctors found with the given filters."] ∧
      (filterDoctorsOnChange role i (.returned (some { doctors := some [] })) content).2 =
        [.para "No doctors found with the given filters."] ∧
      (loadDoctorCards role (.returned none) content).2 = [.para "No doctors found."] ∧
      (loadDoctorCards role (.returned (some [])) content).2 = [.para "No doctors found."] ∧
      ([ContentNode.para "No doctors found with the given filters."].filter
          ContentNode.isCard).length = 0 ∧
      ([ContentNode.para "No doctors found."].filter ContentNode.isCard).length = 0 ∧
      ContentNode.para "No doctors found with the given filters." ≠
        ContentNode.para "No doctors found." := by
  refine ⟨?_, ?_, ?_, ?_, ?_, by decide, by decide, by decide⟩ <;>
    simp [filterDoctorsOnChange, loadDoctorCards, renderDoctorCards]

theorem foldl_append_cards (role : Option String) (ds : List Doctor)
    (acc : List ContentNode) :
    ds.foldl (fun content doctor => content ++ [.card (createDoctorCard role doctor)]) acc =
      acc ++ ds.map (fun d => ContentNode.card (createDoctorCard role d)) := by
  induction ds generalizing acc with
  | nil => simp
  | cons d rest ih => simp [ih]

theorem renderDoctorCards_nonempty (role : Option String) (ds : List Doctor)
    (content : List ContentNode) (h : 0 < ds.length) :
    renderDoctorCards role (some ds) content =
      ds.map (fun d => ContentNode.card (createDoctorCard role d)) := by
  have hne : ds.length ≠ 0 := Nat.pos_iff_ne_zero.mp h
  have hnil : ds ≠ [] := by
    intro h0
    simp [h0] at hne
  simp [renderDoctorCards, hnil, foldl_append_cards]

theorem headings_of_cards (role : Option String) (ds : List Doctor) :
    (ds.map (fun d => ContentNode.card (createDoctorCard role d))).filterMap
        (fun n => match n with
          | .card c => some c.heading
          | .para _ => none) = ds.map (·.name) := by
  induction ds with
  | nil => rfl
  | cons d rest ih =>
    rw [List.map_cons, List.filterMap_cons, ih]
    rfl

/-- C7: for every role, every previous content and every doctor list of length `N > 0`,
`renderDoctorCards` leaves exactly `N` nodes, all of them cards and none a placeholder, the
`i`-th being the card built by `createDoctorCard` from the `i`-th doctor; the names shown in
the headings are the input names in input order, and nothing of the previous content
remains. -/
theorem renderDoctorCards_round_trip (role : Option String) (ds : List Doctor)
    (content : List ContentNode) (h : 0 < ds.length) :
    (renderDoctorCards role (some ds) content).length = ds.length ∧
      (∀ (k : Nat) (hk : k < ds.length),
        (renderDoctorCards role (some ds) content)[k]? =
          some (.card (createDoctorCard role (ds.get ⟨k, hk⟩)))) ∧
      (∀ n ∈ renderDoctorCards role (some ds) content, n.isCard = true) ∧
      ((renderDoctorCards role (some ds) content).filterMap
          (fun n => match n with
            | .card c => some c.heading
            | .para _ => none)) = ds.map (·.name) ∧
      renderDoctorCards role (some ds) content = renderDoctorCards role (some ds) [] := by
  rw [renderDoctorCards_nonempty role ds content h, renderDoctorCards_nonempty role ds [] h]
  refine ⟨by simp, ?_, ?_, ?_, rfl⟩
  · intro k hk
    simp [List.getElem?_map, List.getElem?_eq_getElem hk]
  · intro n hn
    simp only [List.mem_map] at hn
    obtain ⟨d, _, rfl⟩ := hn
    rfl
  · exact headings_of_cards role ds

/-- Witness for C7 on three doctors rendered for the `patient` role over stale content. -/
theorem renderDoctorCards_round_trip_witness :
    0 < [drAnn, drBob, drCy].length ∧
      (renderDoctorCards (some "patient") (some [drAnn, drBob, drCy])
          [.para "No doctors found."]).length = 3 :=
  ⟨by decide,
   (renderDoctorCards_round_trip (some "patient") [drAnn, drBob, drCy]
      [.para "No doctors found."] (by decide)).1⟩


/-! ## Appointment table controller -/

theorem loadAppointments_frame {ρ : Type}
    (createPatientRow : NormalizedPatient → JsVal → JsVal → Settled ρ)
    (res : Settled (Option (List AppointmentRecord))) (s : Dashboard ρ) :
    (loadAppointments createPatientRow res s).2.selectedDate = s.selectedDate ∧
      (loadAppointments createPatientRow res s).2.patientName = s.patientName ∧
      (loadAppointments createPatientRow res s).2.token = s.token := by
  unfold loadAppointments
  rcases res with _ | _ | apps
  · simp
  · simp
  · by_cases h : apps.length = 0
    · simp [h]
    · simp only [h, if_false]
      cases appendRows createPatientRow apps [] <;> simp

/-- C8: for every query state, every previous table body and every row factory, when
`getAllAppointments` resolves to `null`/`undefined` or to an empty list the table body is
exactly one row whose single cell has `colspan` 5 and reads "No Appointments found for
today."; when it throws the table body is exactly one row with `colspan` 5 reading "Error
loading appointments. Try again later."; nothing of the previous rows is kept, and the
query state is not altered. -/
theorem loadAppointments_empty_and_error {ρ : Type}
    (createPatientRow : NormalizedPatient → JsVal → JsVal → Settled ρ) (s : Dashboard ρ) :
    (loadAppointments createPatientRow (.returned none) s).2.tableBody =
        [.message 5 "text-center" "No Appointments found for today."] ∧
      (loadAppointments createPatientRow (.returned (some [])) s).2.tableBody =
        [.message 5 "text-center" "No Appointments found for today."] ∧
      (loadAppointments createPatientRow .threw s).2.tableBody =
        [.message 5 "text-center text-danger"
          "Error loading appointments. Try again later."] ∧
      (∀ res, (loadAppointments createPatientRow res s).2.selectedDate = s.selectedDate ∧
        (loadAppointments createPatientRow res s).2.patientName = s.patientName ∧
        (loadAppointments createPatientRow res s).2.token = s.token) := by
  exact ⟨rfl, rfl, rfl, fun res => loadAppointments_frame createPatientRow res s⟩

/-- C9 (counterexample): on a record whose flattened patient id is `0` and whose flattened
name and phone are empty strings, next to a nested patient `{id: 7, name: "Bob", phone:
"555"}`, the normalised id, name and phone are the nested `7`, "Bob" and "555" and not the
supplied flattened values; an appointment id of `0` gives way to `id` 9 and a doctor id of
`0` becomes `null`. -/
theorem normalizePatient_zero_id_counterexample :
    (normalizePatient zeroIdAppointment).id = .num 7 ∧
      (normalizePatient zeroIdAppointment).id ≠
        firstSupplied zeroIdAppointment.patientId
          (optChain zeroIdAppointment.patient (·.id)) .null ∧
      (normalizePatient zeroIdAppointment).name ≠
        firstSupplied zeroIdAppointment.patientName
          (optChain zeroIdAppointment.patient (·.name)) (.str "Unknown") ∧
      (normalizePatient zeroIdAppointment).phone ≠
        firstSupplied zeroIdAppointment.patientPhone
          (optChain zeroIdAppointment.patient (·.phone)) (.str "") ∧
      rowAppointmentId zeroIdAppointment ≠
        (if zeroIdAppointment.appointmentId.supplied then zeroIdAppointment.appointmentId
         else zeroIdAppointment.id) ∧
      rowDoctorId zeroIdAppointment ≠
        (if zeroIdAppointment.doctorId.supplied then zeroIdAppointment.doctorId
         else .null) := by
  decide

/-- C9 (amended): for every appointment record, each of the patient's id, name, phone and
email is the flattened field when that field is truthy, else the nested patient-object field
when that is truthy, else the fixed default (`null`, "Unknown", "", ""); the appointment id
is `appointmentId` when truthy, else `id`; the doctor id is `doctorId` when truthy, else
`null`. A value is truthy unless it is `undefined`, `null`, `false`, `0` or the empty
string. -/
theorem normalizePatient_fallback_chain (app : AppointmentRecord) :
    (normalizePatient app).id =
        firstTruthy app.patientId (optChain app.patient (·.id)) .null ∧
      (normalizePatient app).name =
        firstTruthy app.patientName (optChain app.patient (·.name)) (.str "Unknown") ∧
      (normalizePatient app).phone =
        firstTruthy app.patientPhone (optChain app.patient (·.phone)) (.str "") ∧
      (normalizePatient app).email =
        firstTruthy app.patientEmail (optChain app.patient (·.email)) (.str "") ∧
      rowAppointmentId app = (if app.appointmentId.truthy then app.appointmentId else app.id) ∧
      rowDoctorId app = (if app.doctorId.truthy then app.doctorId else .null) ∧
      (∀ v : JsVal, v.truthy = true ↔
        v ≠ .undefined ∧ v ≠ .null ∧ v ≠ .bool false ∧ v ≠ .num 0 ∧ v ≠ .str "") := by
  have chain : ∀ a b c : JsVal, jsOr (jsOr a b) c = firstTruthy a b c := by
    intro a b c
    unfold jsOr firstTruthy
    by_cases ha : a.truthy = true
    · simp [ha]
    · by_cases hb : b.truthy = true <;> simp [ha, hb]
  refine ⟨chain _ _ _, chain _ _ _, chain _ _ _, chain _ _ _, rfl, rfl, ?_⟩
  intro v
  cases v with
  | undefined => simp [JsVal.truthy]
  | null => simp [JsVal.truthy]
  | bool b => cases b <;> simp [JsVal.truthy]
  | num n => simp [JsVal.truthy]
  | str s => simp [JsVal.truthy]
  | obj => simp [JsVal.truthy]

theorem jsTrim_length_pos (v : String) (h : (jsTrim v).length > 0) : jsTrim v ≠ "" := by
  intro h0
  rw [h0] at h
  simp at h

theorem applyTrigger_patientName_ne_empty {ρ : Type} (t : Trigger) (s : Dashboard ρ)
    (h : s.patientName ≠ "") : (applyTrigger t s).patientName ≠ "" := by
  cases t with
  | searchInput v =>
    simp only [applyTrigger]
    by_cases hv : (jsTrim v).length > 0
    · simpa [hv] using jsTrim_length_pos v hv
    · simp [hv]
  | todayClick d => simpa [applyTrigger] using h
  | dateChange d => simpa [applyTrigger] using h
  | pageLoad => simpa [applyTrigger] using h

theorem loadAppointments_one_query {ρ : Type}
    (createPatientRow : NormalizedPatient → JsVal → JsVal → Settled ρ)
    (res : Settled (Option (List AppointmentRecord))) (s : Dashboard ρ) :
    (loadAppointments createPatientRow res s).1.filter Effect.isGatewayCall =
      [.getAllAppointments s.selectedDate s.patientName s.token] := by
  unfold loadAppointments
  rcases res with _ | _ | apps
  · simp [Effect.isGatewayCall]
  · simp [Effect.isGatewayCall]
  · by_cases h : apps.length = 0
    · simp [h, Effect.isGatewayCall]
    · simp only [h, if_false]
      cases appendRows createPatientRow apps [] <;> simp [Effect.isGatewayCall]

theorem string_length_pos_iff (x : String) : x.length > 0 ↔ x ≠ "" := by
  constructor
  · intro h h0
    rw [h0] at h
    simp at h
  · intro h
    rcases x with ⟨cs⟩
    cases cs with
    | nil => exact absurd rfl h
    | cons c rest => simp [String.length]

theorem reachable_patientName_ne_empty {ρ : Type}
    (createPatientRow : NormalizedPatient → JsVal → JsVal → Settled ρ) (s : Dashboard ρ)
    (h : Reachable createPatientRow s) : s.patientName ≠ "" := by
  induction h with
  | init today token rows => simp [Dashboard.initial]
  | step t res s _ ih =>
    unfold dashboardStep
    rw [(loadAppointments_frame createPatientRow res (applyTrigger t s)).2.1]
    exact applyTrigger_patientName_ne_empty t s ih

/-- C10: on the state `{selectedDate, patientName}` of the doctor dashboard, the name-input
listener sets `patientName` to the trimmed input when that is non-empty and to the string
"null" otherwise and keeps `selectedDate`; the date-picker and today listeners set
`selectedDate` to the supplied date and keep `patientName`; every listener then issues
exactly one `getAllAppointments` query, carrying the updated state; the initial
`patientName` is "null", and in every reachable state `patientName` is not the empty
string. -/
theorem dashboard_trigger_transitions {ρ : Type}
    (createPatientRow : NormalizedPatient → JsVal → JsVal → Settled ρ) :
    (∀ (s : Dashboard ρ) (v : String) (res : Settled (Option (List AppointmentRecord))),
        (dashboardStep createPatientRow (.searchInput v) res s).2.patientName =
            (if jsTrim v ≠ "" then jsTrim v else "null") ∧
          (dashboardStep createPatientRow (.searchInput v) res s).2.selectedDate =
            s.selectedDate) ∧
      (∀ (s : Dashboard ρ) (v : String) (res : Settled (Option (List AppointmentRecord))),
        (dashboardStep createPatientRow (.dateChange v) res s).2.selectedDate = v ∧
          (dashboardStep createPatientRow (.dateChange v) res s).2.patientName =
            s.patientName) ∧
      (∀ (s : Dashboard ρ) (d : String) (res : Settled (Option (List AppointmentRecord))),
        (dashboardStep createPatientRow (.todayClick d) res s).2.selectedDate = d ∧
          (dashboardStep createPatientRow (.todayClick d) res s).2.patientName =
            s.patientName) ∧
      (∀ (s : Dashboard ρ) (t : Trigger) (res : Settled (Option (List AppointmentRecord))),
        (dashboardStep createPatientRow t res s).1.filter Effect.isGatewayCall =
          [.getAllAppointments (applyTrigger t s).selectedDate (applyTrigger t s).patientName
            s.token]) ∧
      (∀ (today : String) (token : Option String) (rows : List (TableRow ρ)),
        (Dashboard.initial today token rows).patientName = "null") ∧
      (∀ s : Dashboard ρ, Reachable createPatientRow s → s.patientName ≠ "") := by
  refine ⟨?_, ?_, ?_, ?_, fun _ _ _ => rfl, reachable_patientName_ne_empty createPatientRow⟩
  · intro s v res
    unfold dashboardStep
    obtain ⟨hd, hn, _⟩ := loadAppointments_frame createPatientRow res
      (applyTrigger (.searchInput v) s)
    rw [hd, hn]
    refine ⟨?_, rfl⟩
    simp only [applyTrigger]
    by_cases hv : jsTrim v = ""
    · simp [hv]
    · have : (jsTrim v).length > 0 := (string_length_pos_iff _).2 hv
      simp [hv, this]
  · intro s v res
    unfold dashboardStep
    obtain ⟨hd, hn, _⟩ := loadAppointments_frame createPatientRow res
      (applyTrigger (.dateChange v) s)
    rw [hd, hn]
    exact ⟨rfl, rfl⟩
  · intro s d res
    unfold dashboardStep
    obtain ⟨hd, hn, _⟩ := loadAppointments_frame createPatientRow res
      (applyTrigger (.todayClick d) s)
    rw [hd, hn]
    exact ⟨rfl, rfl⟩
  · intro s t res
    unfold dashboardStep
    rw [loadAppointments_one_query]
    cases t <;> rfl

/-- Witness for C10: after typing only blanks into the search bar on a fresh dashboard the
state is reachable and its `patientName` is the sentinel, not the empty string. -/
theorem dashboard_trigger_transitions_witness :
    (dashboardStep echoRow (.searchInput "   ") (.returned none)
        (Dashboard.initial "2024-01-02" (some "tok-1") [])).2.patientName ≠ "" :=
  (dashboard_trigger_transitions echoRow).2.2.2.2.2 _
    (Reachable.step (.searchInput "   ") (.returned none) _
      (Reachable.init "2024-01-02" (some "tok-1") []))

/-! ## Directory controller on gateway failure -/

/-- The `catch` paths of the two controllers: when the awaited wrapper call rejects,
`loadDoctorCards` only logs ("Error loading doctors:"), `filterDoctorsOnChange` alerts
"Failed to filter doctors, please try again." and logs ("Filter error:"), and in both the
content is exactly the prior content. -/
theorem directory_unchanged_when_call_rejects (role : Option String) (i : FilterInputs)
    (content : List ContentNode) :
    (loadDoctorCards role .threw content).2 = content ∧
      (loadDoctorCards role .threw content).1 =
        [.getDoctors, .consoleError "Error loading doctors:"] ∧
      (filterDoctorsOnChange role i .threw content).2 = content ∧
      (filterDoctorsOnChange role i .threw content).1 =
        [.filterDoctors (filterCriteria i).name (filterCriteria i).time
            (filterCriteria i).specialty,
         .alert "Failed to filter doctors, please try again.",
         .consoleError "Filter error:"] := by
  refine ⟨?_, ?_, ?_, ?_⟩
  · simp [loadDoctorCards]
  · simp [loadDoctorCards]
  · simp [filterDoctorsOnChange]
  · simp [filterDoctorsOnChange]

theorem filterDoctors_failed (net : FetchOutcome FilterResult) (h : net.failed = true) :
    (filterDoctors net).settled = .returned (some { doctors := some [] }) := by
  cases net with
  | networkError => rfl
  | response ok body =>
    cases ok with
    | true => simp [FetchOutcome.failed] at h
    | false => rfl

theorem wrappers_never_reject (net : FetchOutcome FilterResult) :
    (getDoctors net).settled ≠ .threw ∧ (filterDoctors net).settled ≠ .threw := by
  constructor
  · rcases net with _ | ⟨ok, _ | _ | envelope⟩ <;> simp [getDoctors]
  · rcases net with _ | ⟨_ | _, _ | v⟩ <;> simp [filterDoctors]

/-- C11 (code defect): with the gateway wrappers as the repository documents them, a gateway
failure never reaches the `catch` blocks of the controllers, because neither wrapper ever
rejects. When the request of `getDoctors` throws, the wrapper logs and resolves to an empty
list, and `loadDoctorCards` replaces every prior content by the one paragraph "No doctors
found." without logging "Error loading doctors:". When the request of `filterDoctors` fails
(it throws or the response is not OK), the wrapper resolves to an empty result, and
`filterDoctorsOnChange` replaces every prior content by the one paragraph "No doctors found
with the given filters." and shows neither its alert nor its log. The prior view is not
kept. -/
theorem directory_replaced_on_gateway_failure (role : Option String) (i : FilterInputs)
    (content : List ContentNode) (net : FetchOutcome FilterResult)
    (h_failed : net.failed = true) :
    (∀ any : FetchOutcome FilterResult,
        (getDoctors any).settled ≠ .threw ∧ (filterDoctors any).settled ≠ .threw) ∧
      getDoctors .networkError =
        { logged := true, alerted := false, settled := .returned (some []) } ∧
      loadDoctorCards role (getDoctors .networkError).settled content =
        ([.getDoctors], [.para "No doctors found."]) ∧
      filterDoctorsOnChange role i (filterDoctors net).settled content =
        ([.filterDoctors (filterCriteria i).name (filterCriteria i).time
            (filterCriteria i).specialty],
         [.para "No doctors found with the given filters."]) := by
  refine ⟨wrappers_never_reject, rfl, ?_, ?_⟩
  · simp [getDoctors, loadDoctorCards, renderDoctorCards]
  · rw [filterDoctors_failed net h_failed]
    simp [filterDoctorsOnChange]

/-- Witness for C11: two admin cards are on screen and the filter request throws; the cards
are gone and the filter placeholder stands in their place. -/
theorem directory_replaced_on_gateway_failure_witness :
    (FetchOutcome.networkError : FetchOutcome FilterResult).failed = true ∧
      (filterDoctorsOnChange (some "admin") smithInputs
          (filterDoctors .networkError).settled twoCards).2 =
        [.para "No doctors found with the given filters."] ∧
      (filterDoctorsOnChange (some "admin") smithInputs
          (filterDoctors .networkError).settled twoCards).2 ≠ twoCards ∧
      (loadDoctorCards (some "admin") (getDoctors .networkError).settled twoCards).2 ≠
        twoCards :=
  ⟨rfl,
   congrArg Prod.snd
     (directory_replaced_on_gateway_failure (some "admin") smithInputs twoCards
       .networkError rfl).2.2.2,
   by decide, by decide⟩

end Clinic
